import Mathlib

/-!
Verification of `src/windows/flutter/generated_plugin_registrant.cc`.

The source file defines a single function `RegisterPlugins(flutter::PluginRegistry*)`
that, in straight-line order, calls `registry->GetRegistrarForPlugin(name)` for each
of eight fixed plugin names and passes the resulting sub-registrar to that plugin's
registration entry point.

We embed the function as a trace semantics: the host registry is an abstract
interface (`Host`) whose lookup and registration operations may fail (`Option`),
and `RegisterPlugins` produces the list of observable events (lookups and
registration calls, in order) together with the final registry state, or `none`
when a step fails (modelling the host's fatal abort / unchecked-exception
mechanism, which this layer does not intercept).
-/

namespace Streamline

/-- A scoped sub-registrar handle granted to one plugin
(the value returned by `GetRegistrarForPlugin`). -/
structure PluginRegistrar where
  pluginName : String
deriving DecidableEq

/-- Observable events of one run of `RegisterPlugins`:
a `GetRegistrarForPlugin` lookup by name, or an invocation of a plugin's
registration entry point with the sub-registrar argument that was passed to it. -/
inductive Event (ρ : Type) where
  | lookup (name : String)
  | registerCall (entryPoint : String) (arg : ρ)
deriving DecidableEq

/-- The host registry interface used by the generated file: a name-indexed
sub-registrar lookup and, for each registration entry point (identified by its
C symbol name), the externally defined registration behavior acting on the
registry state.  Either operation may fail; failure aborts the run. -/
structure Host (ρ σ : Type) where
  getRegistrarForPlugin : String → Option ρ
  registerWithRegistrar : String → ρ → σ → Option σ

/-- The eight `(registration entry point, plugin name)` pairs, in the exact
order of the source statements (lines 19-34 of the registrant). -/
def pluginDescriptors : List (String × String) :=
  [("BatteryPlusWindowsPluginRegisterWithRegistrar", "BatteryPlusWindowsPlugin"),
   ("BonsoirWindowsPluginCApiRegisterWithRegistrar", "BonsoirWindowsPluginCApi"),
   ("FirebaseCorePluginCApiRegisterWithRegistrar", "FirebaseCorePluginCApi"),
   ("FlutterJsPluginRegisterWithRegistrar", "FlutterJsPlugin"),
   ("PermissionHandlerWindowsPluginRegisterWithRegistrar", "PermissionHandlerWindowsPlugin"),
   ("ScreenRetrieverWindowsPluginCApiRegisterWithRegistrar", "ScreenRetrieverWindowsPluginCApi"),
   ("UrlLauncherWindowsRegisterWithRegistrar", "UrlLauncherWindows"),
   ("WindowManagerPluginRegisterWithRegistrar", "WindowManagerPlugin")]

/-- The eight canonical plugin names, in source order. -/
def pluginNames : List String := pluginDescriptors.map Prod.snd

/-- One source statement `EntryPoint(registry->GetRegistrarForPlugin("Name"))`:
look the sub-registrar up by name, then invoke the entry point with it.
Returns the events performed and the resulting state (`none` on failure). -/
def registerOne {ρ σ : Type} (h : Host ρ σ) (d : String × String) (s : σ) :
    List (Event ρ) × Option σ :=
  match h.getRegistrarForPlugin d.2 with
  | none => ([Event.lookup d.2], none)
  | some r =>
    match h.registerWithRegistrar d.1 r s with
    | none => ([Event.lookup d.2, Event.registerCall d.1 r], none)
    | some s' => ([Event.lookup d.2, Event.registerCall d.1 r], some s')

/-- Sequential execution of a list of registration statements: each statement
runs to completion before the next begins, and a failure stops the run. -/
def runSeq {ρ σ : Type} (h : Host ρ σ) : List (String × String) → σ → List (Event ρ) × Option σ
  | [], s => ([], some s)
  | d :: ds, s =>
    match registerOne h d s with
    | (es, none) => (es, none)
    | (es, some s') => (es ++ (runSeq h ds s').1, (runSeq h ds s').2)

/-- `RegisterPlugins`: the straight-line body of the source function, i.e. the
eight statements of lines 19-34 executed in order. -/
def RegisterPlugins {ρ σ : Type} (h : Host ρ σ) (s : σ) : List (Event ρ) × Option σ :=
  runSeq h pluginDescriptors s

/-- The names passed to `GetRegistrarForPlugin` during a run, in call order. -/
def lookupNames {ρ : Type} : List (Event ρ) → List String
  | [] => []
  | Event.lookup n :: es => n :: lookupNames es
  | Event.registerCall _ _ :: es => lookupNames es

/-- The registration entry points invoked during a run, in call order. -/
def entryPointsCalled {ρ : Type} : List (Event ρ) → List String
  | [] => []
  | Event.lookup _ :: es => entryPointsCalled es
  | Event.registerCall ep _ :: es => ep :: entryPointsCalled es

/-- The shape of an event, forgetting the registrar value:
`(false, n)` for a lookup of name `n`, `(true, ep)` for a call of entry point `ep`. -/
def eventLabel {ρ : Type} : Event ρ → Bool × String
  | Event.lookup n => (false, n)
  | Event.registerCall ep _ => (true, ep)

/-- The event shapes a list of statements produces when every step succeeds:
each statement contributes its lookup immediately followed by its call. -/
def plan : List (String × String) → List (Bool × String)
  | [] => []
  | d :: ds => (false, d.2) :: (true, d.1) :: plan ds

/-- Modelled from the spec: the registry state is the map from plugin name to
its active flag ("the registry now has all eight plugins active"); the plugin
implementations themselves are external to the repository. -/
def RegistryState := String → Bool

/-- Modelled from the spec: a well-behaved host registry.  `GetRegistrarForPlugin`
yields the sub-registrar scoped to the requested name ("a scoped handle into the
registry granted to one specific plugin"), and each external registration entry
point activates exactly the slot of the plugin its registrar is scoped to
("side-effect-isolated to its own plugin slot"). -/
def specHost : Host PluginRegistrar RegistryState where
  getRegistrarForPlugin := fun name => some ⟨name⟩
  registerWithRegistrar := fun _ r s => some (fun n => if n = r.pluginName then true else s n)

/-- Modelled from the spec: a null/invalid registry handle — every operation on
it fails ("fails immediately rather than silently no-op-ing"). -/
def nullHost (ρ σ : Type) : Host ρ σ where
  getRegistrarForPlugin := fun _ => none
  registerWithRegistrar := fun _ _ _ => none

/-- Modelled from the spec: a host registry whose sub-registrar lookup fails for
one particular plugin (the third one registered) and otherwise behaves like
`specHost`; used to exercise the failure-propagation path. -/
def failHost : Host PluginRegistrar RegistryState where
  getRegistrarForPlugin := fun name =>
    if name = "FirebaseCorePluginCApi" then none else some ⟨name⟩
  registerWithRegistrar := fun _ r s => some (fun n => if n = r.pluginName then true else s n)

/-! ### Structural lemmas about `runSeq` -/

lemma lookupNames_append {ρ : Type} (a b : List (Event ρ)) :
    lookupNames (a ++ b) = lookupNames a ++ lookupNames b := by
  induction a with
  | nil => rfl
  | cons e es ih => cases e <;> simp [lookupNames, ih]

lemma entryPointsCalled_append {ρ : Type} (a b : List (Event ρ)) :
    entryPointsCalled (a ++ b) = entryPointsCalled a ++ entryPointsCalled b := by
  induction a with
  | nil => rfl
  | cons e es ih => cases e <;> simp [entryPointsCalled, ih]

/-- When a run of a statement list succeeds, the event shapes it produced are
exactly its plan: lookup then call, statement by statement, in list order. -/
lemma runSeq_labels {ρ σ : Type} (h : Host ρ σ) :
    ∀ (l : List (String × String)) (s : σ), (runSeq h l s).2.isSome →
      (runSeq h l s).1.map eventLabel = plan l := by
  intro l
  induction l with
  | nil => intro s _; rfl
  | cons d ds ih =>
    intro s hs
    cases hlk : h.getRegistrarForPlugin d.2 with
    | none => exfalso; simp [runSeq, registerOne, hlk] at hs
    | some r =>
      cases hreg : h.registerWithRegistrar d.1 r s with
      | none => exfalso; simp [runSeq, registerOne, hlk, hreg] at hs
      | some s' =>
        have hs' : (runSeq h ds s').2.isSome := by
          simpa [runSeq, registerOne, hlk, hreg] using hs
        simp [runSeq, registerOne, hlk, hreg, eventLabel, plan, ih s' hs']

/-- When a run succeeds, the names passed to `GetRegistrarForPlugin` are the
statement list's names, in order. -/
lemma runSeq_lookupNames {ρ σ : Type} (h : Host ρ σ) :
    ∀ (l : List (String × String)) (s : σ), (runSeq h l s).2.isSome →
      lookupNames (runSeq h l s).1 = l.map Prod.snd := by
  intro l
  induction l with
  | nil => intro s _; rfl
  | cons d ds ih =>
    intro s hs
    cases hlk : h.getRegistrarForPlugin d.2 with
    | none => exfalso; simp [runSeq, registerOne, hlk] at hs
    | some r =>
      cases hreg : h.registerWithRegistrar d.1 r s with
      | none => exfalso; simp [runSeq, registerOne, hlk, hreg] at hs
      | some s' =>
        have hs' : (runSeq h ds s').2.isSome := by
          simpa [runSeq, registerOne, hlk, hreg] using hs
        simp [runSeq, registerOne, hlk, hreg, lookupNames, lookupNames_append, ih s' hs']

/-- When a run succeeds, the entry points invoked are the statement list's
entry points, in order. -/
lemma runSeq_entryPoints {ρ σ : Type} (h : Host ρ σ) :
    ∀ (l : List (String × String)) (s : σ), (runSeq h l s).2.isSome →
      entryPointsCalled (runSeq h l s).1 = l.map Prod.fst := by
  intro l
  induction l with
  | nil => intro s _; rfl
  | cons d ds ih =>
    intro s hs
    cases hlk : h.getRegistrarForPlugin d.2 with
    | none => exfalso; simp [runSeq, registerOne, hlk] at hs
    | some r =>
      cases hreg : h.registerWithRegistrar d.1 r s with
      | none => exfalso; simp [runSeq, registerOne, hlk, hreg] at hs
      | some s' =>
        have hs' : (runSeq h ds s').2.isSome := by
          simpa [runSeq, registerOne, hlk, hreg] using hs
        simp [runSeq, registerOne, hlk, hreg, entryPointsCalled, entryPointsCalled_append,
          ih s' hs']

/-- Every registration call in a run's trace received the sub-registrar that
`GetRegistrarForPlugin` returned for the plugin name paired with that entry
point in the statement list. -/
lemma runSeq_registerCall_mem {ρ σ : Type} (h : Host ρ σ) :
    ∀ (l : List (String × String)) (s : σ) (ep : String) (r : ρ),
      Event.registerCall ep r ∈ (runSeq h l s).1 →
      ∃ name, (ep, name) ∈ l ∧ h.getRegistrarForPlugin name = some r := by
  intro l
  induction l with
  | nil => intro s ep r hmem; simp [runSeq] at hmem
  | cons d ds ih =>
    intro s ep r hmem
    cases hlk : h.getRegistrarForPlugin d.2 with
    | none =>
      rw [show runSeq h (d :: ds) s = ([Event.lookup d.2], none) by
        simp [runSeq, registerOne, hlk]] at hmem
      simp at hmem
    | some r' =>
      cases hreg : h.registerWithRegistrar d.1 r' s with
      | none =>
        rw [show runSeq h (d :: ds) s =
            ([Event.lookup d.2, Event.registerCall d.1 r'], none) by
          simp [runSeq, registerOne, hlk, hreg]] at hmem
        simp at hmem
        obtain ⟨hep, hr⟩ := hmem
        exact ⟨d.2, by simp [hep], by rw [hlk, hr]⟩
      | some s' =>
        rw [show (runSeq h (d :: ds) s).1 =
            Event.lookup d.2 :: Event.registerCall d.1 r' :: (runSeq h ds s').1 by
          simp [runSeq, registerOne, hlk, hreg]] at hmem
        simp at hmem
        rcases hmem with ⟨hep, hr⟩ | htail
        · exact ⟨d.2, by simp [hep], by rw [hlk, hr]⟩
        · obtain ⟨name, hn, hg⟩ := ih s' ep r htail
          exact ⟨name, by simp [hn], hg⟩

/-- Decomposition of a run over an appended statement list, given that the
first part succeeds. -/
lemma runSeq_append_some {ρ σ : Type} (h : Host ρ σ) :
    ∀ (l1 l2 : List (String × String)) (s : σ) (t1 : List (Event ρ)) (s1 : σ),
      runSeq h l1 s = (t1, some s1) →
      runSeq h (l1 ++ l2) s = (t1 ++ (runSeq h l2 s1).1, (runSeq h l2 s1).2) := by
  intro l1
  induction l1 with
  | nil =>
    intro l2 s t1 s1 h1
    simp [runSeq] at h1
    obtain ⟨ht, hs⟩ := h1
    subst ht; subst hs
    simp
  | cons d ds ih =>
    intro l2 s t1 s1 h1
    cases he : registerOne h d s with
    | mk es ro =>
      cases ro with
      | none =>
        rw [show runSeq h (d :: ds) s = (es, none) by simp [runSeq, he]] at h1
        exact absurd (congrArg Prod.snd h1) (by simp)
      | some s' =>
        rw [show runSeq h (d :: ds) s = (es ++ (runSeq h ds s').1, (runSeq h ds s').2) by
          simp [runSeq, he]] at h1
        have ht1 : t1 = es ++ (runSeq h ds s').1 := (congrArg Prod.fst h1).symm
        have hs2 : (runSeq h ds s').2 = some s1 := congrArg Prod.snd h1
        have hds : runSeq h ds s' = ((runSeq h ds s').1, some s1) := by
          rw [← hs2]
        have hih := ih l2 s' (runSeq h ds s').1 s1 hds
        have : runSeq h ((d :: ds) ++ l2) s =
            (es ++ (runSeq h (ds ++ l2) s').1, (runSeq h (ds ++ l2) s').2) := by
          simp [runSeq, he]
        rw [this, hih]
        simp [ht1]

/-- The final state of a run of the spec-modelled host: exactly the slots of
the statement list's plugin names are activated, all other slots keep their
input value; the run always succeeds. -/
lemma runSeq_specHost_active :
    ∀ (l : List (String × String)) (s : RegistryState),
      ∃ s1, (runSeq specHost l s).2 = some s1 ∧
        ∀ n, s1 n = (if n ∈ l.map Prod.snd then true else s n) := by
  intro l
  induction l with
  | nil =>
    intro s
    exact ⟨s, rfl, by intro n; simp⟩
  | cons d ds ih =>
    intro s
    obtain ⟨s1, h1, h2⟩ := ih (fun n => if n = d.2 then true else s n)
    refine ⟨s1, ?_, ?_⟩
    · simpa [runSeq, registerOne, specHost] using h1
    · intro n
      rw [h2 n]
      by_cases hmem : n ∈ ds.map Prod.snd
      · simp [hmem]
      · by_cases hn : n = d.2 <;> simp [hmem, hn]

/-! ### Claim theorems -/

/-- C1: during an invocation of `RegisterPlugins` that runs to completion,
`GetRegistrarForPlugin` is looked up exactly once for each of the eight known
plugin names and never for any other name: the count of each known name among
the lookups is 1, of every other name 0 (so there are no duplicate lookups). -/
theorem claim_C1_one_lookup_per_name {ρ σ : Type} (h : Host ρ σ) (s : σ)
    (hs : (RegisterPlugins h s).2.isSome) :
    ∀ n : String, (lookupNames (RegisterPlugins h s).1).count n =
      (if n ∈ pluginNames then 1 else 0) := by
  intro n
  have hl := runSeq_lookupNames h pluginDescriptors s hs
  rw [RegisterPlugins] at *
  rw [hl]
  by_cases hmem : n ∈ pluginNames
  · rw [if_pos hmem]
    exact List.count_eq_one_of_mem (by decide) hmem
  · rw [if_neg hmem]
    exact List.count_eq_zero_of_not_mem hmem

/-- C1 witness: for the spec-modelled host on an all-inactive registry,
the first known name is looked up exactly once and an unknown name never. -/
theorem claim_C1_one_lookup_per_name_witness :
    (lookupNames (RegisterPlugins specHost (fun _ => false)).1).count
        "BatteryPlusWindowsPlugin" = 1 ∧
    (lookupNames (RegisterPlugins specHost (fun _ => false)).1).count
        "SomeOtherPlugin" = 0 := by
  constructor
  · rw [claim_C1_one_lookup_per_name specHost (fun _ => false) rfl "BatteryPlusWindowsPlugin"]
    decide
  · rw [claim_C1_one_lookup_per_name specHost (fun _ => false) rfl "SomeOtherPlugin"]
    decide

/-- C2: during an invocation of `RegisterPlugins` that runs to completion, the
set of names passed to `GetRegistrarForPlugin` equals, as a set, exactly the
fixed eight canonical names. -/
theorem claim_C2_lookup_name_set {ρ σ : Type} (h : Host ρ σ) (s : σ)
    (hs : (RegisterPlugins h s).2.isSome) :
    (lookupNames (RegisterPlugins h s).1).toFinset =
      ({"BatteryPlusWindowsPlugin", "BonsoirWindowsPluginCApi", "FirebaseCorePluginCApi",
        "FlutterJsPlugin", "PermissionHandlerWindowsPlugin", "ScreenRetrieverWindowsPluginCApi",
        "UrlLauncherWindows", "WindowManagerPlugin"} : Finset String) := by
  have hl := runSeq_lookupNames h pluginDescriptors s hs
  rw [RegisterPlugins] at *
  rw [hl]
  decide

/-- C2 witness: instantiated at the spec-modelled host on an all-inactive registry. -/
theorem claim_C2_lookup_name_set_witness :
    (lookupNames (RegisterPlugins specHost (fun _ => false)).1).toFinset =
      ({"BatteryPlusWindowsPlugin", "BonsoirWindowsPluginCApi", "FirebaseCorePluginCApi",
        "FlutterJsPlugin", "PermissionHandlerWindowsPlugin", "ScreenRetrieverWindowsPluginCApi",
        "UrlLauncherWindows", "WindowManagerPlugin"} : Finset String) :=
  claim_C2_lookup_name_set specHost (fun _ => false) rfl

/-- C3: during an invocation of `RegisterPlugins` that runs to completion, each
of the eight registration entry points is invoked exactly once, and every
invocation of it received precisely the sub-registrar that
`GetRegistrarForPlugin` returned for that plugin's own canonical name. -/
theorem claim_C3_entry_point_once_own_registrar {ρ σ : Type} (h : Host ρ σ) (s : σ)
    (hs : (RegisterPlugins h s).2.isSome) :
    ∀ d ∈ pluginDescriptors,
      (entryPointsCalled (RegisterPlugins h s).1).count d.1 = 1 ∧
      ∀ r : ρ, Event.registerCall d.1 r ∈ (RegisterPlugins h s).1 →
        h.getRegistrarForPlugin d.2 = some r := by
  intro d hd
  constructor
  · have he := runSeq_entryPoints h pluginDescriptors s hs
    rw [RegisterPlugins] at *
    rw [he]
    revert hd
    revert d
    decide
  · intro r hmem
    obtain ⟨name, hn, hg⟩ := runSeq_registerCall_mem h pluginDescriptors s d.1 r hmem
    have huniq : ∀ p ∈ pluginDescriptors, ∀ q ∈ pluginDescriptors,
        p.1 = q.1 → p.2 = q.2 := by decide
    have : name = d.2 := huniq (d.1, name) hn d hd rfl
    rw [← this]
    exact hg

/-- C3 witness: at the spec-modelled host, the first descriptor's entry point is
called exactly once and its argument is the registrar scoped to its own name. -/
theorem claim_C3_entry_point_once_own_registrar_witness :
    (entryPointsCalled (RegisterPlugins specHost (fun _ => false)).1).count
        "BatteryPlusWindowsPluginRegisterWithRegistrar" = 1 ∧
    specHost.getRegistrarForPlugin "BatteryPlusWindowsPlugin" =
      some ⟨"BatteryPlusWindowsPlugin"⟩ := by
  have hc := claim_C3_entry_point_once_own_registrar specHost (fun _ => false) rfl
      ("BatteryPlusWindowsPluginRegisterWithRegistrar", "BatteryPlusWindowsPlugin")
      (by decide)
  exact ⟨hc.1, hc.2 ⟨"BatteryPlusWindowsPlugin"⟩ (by decide)⟩

/-- C4: on a null/invalid registry handle, `RegisterPlugins` fails immediately:
its very first operation is the sub-registrar lookup for the first plugin name,
and when that lookup fails the whole call fails (`none`) with that single lookup
as the only event — no registration entry point is ever invoked, and the call
does not silently return success. -/
theorem claim_C4_null_handle_fails_immediately {ρ σ : Type} (h : Host ρ σ) (s : σ)
    (hnull : h.getRegistrarForPlugin "BatteryPlusWindowsPlugin" = none) :
    RegisterPlugins h s = ([Event.lookup "BatteryPlusWindowsPlugin"], none) := by
  simp [RegisterPlugins, runSeq, registerOne, pluginDescriptors, hnull]

/-- C4 witness: instantiated at the spec-modelled null handle. -/
theorem claim_C4_null_handle_fails_immediately_witness :
    RegisterPlugins (nullHost PluginRegistrar RegistryState) (fun _ => false) =
      ([Event.lookup "BatteryPlusWindowsPlugin"], none) :=
  claim_C4_null_handle_fails_immediately (nullHost PluginRegistrar RegistryState)
    (fun _ => false) rfl

/-- C5: `RegisterPlugins` intercepts no error.  If, after some prefix of the
eight statements has succeeded, the next statement's lookup or registration
call fails, then the whole call fails with exactly the events performed so far
(the failure is propagated unmodified as `none` — not caught, wrapped, or
retried) and no subsequent statement's lookup or registration is performed. -/
theorem claim_C5_failure_propagates {ρ σ : Type} (h : Host ρ σ) (s : σ)
    (l1 : List (String × String)) (d : String × String) (l2 : List (String × String))
    (t1 : List (Event ρ)) (s1 : σ)
    (hsplit : pluginDescriptors = l1 ++ d :: l2)
    (h1 : runSeq h l1 s = (t1, some s1))
    (hfail : (registerOne h d s1).2 = none) :
    RegisterPlugins h s = (t1 ++ (registerOne h d s1).1, none) := by
  rw [RegisterPlugins, hsplit, runSeq_append_some h l1 (d :: l2) s t1 s1 h1]
  cases he : registerOne h d s1 with
  | mk t2 r2 =>
    rw [he] at hfail
    simp at hfail
    subst hfail
    simp [runSeq, he]

/-- C5 witness: at a host whose third lookup fails, the run performs the first
two registrations, attempts the third lookup, and stops with a failure. -/
theorem claim_C5_failure_propagates_witness :
    RegisterPlugins failHost (fun _ => false) =
      ([Event.lookup "BatteryPlusWindowsPlugin",
        Event.registerCall "BatteryPlusWindowsPluginRegisterWithRegistrar"
          ⟨"BatteryPlusWindowsPlugin"⟩,
        Event.lookup "BonsoirWindowsPluginCApi",
        Event.registerCall "BonsoirWindowsPluginCApiRegisterWithRegistrar"
          ⟨"BonsoirWindowsPluginCApi"⟩,
        Event.lookup "FirebaseCorePluginCApi"], none) := by
  have hc := claim_C5_failure_propagates failHost (fun _ => false)
      (pluginDescriptors.take 2)
      ("FirebaseCorePluginCApiRegisterWithRegistrar", "FirebaseCorePluginCApi")
      (pluginDescriptors.drop 3) _ _ rfl rfl rfl
  exact hc

/-- C6: `RegisterPlugins` has no re-entry guard and is not idempotent in its
calls: invoking it again on the state produced by a successful first invocation
performs a second full round — the identical event trace, with all eight
lookups and all eight registration calls — and succeeds again. -/
theorem claim_C6_no_reentry_guard (s : RegistryState) :
    ∃ s1, (RegisterPlugins specHost s).2 = some s1 ∧
      (RegisterPlugins specHost s1).1 = (RegisterPlugins specHost s).1 ∧
      lookupNames (RegisterPlugins specHost s1).1 = pluginNames ∧
      entryPointsCalled (RegisterPlugins specHost s1).1 = pluginDescriptors.map Prod.fst ∧
      (RegisterPlugins specHost s1).2.isSome :=
  ⟨_, rfl, rfl, rfl, rfl, rfl⟩

/-- C7: the eight registrations commute.  Running any permutation of the eight
statements from the same start state succeeds and yields the same final
registry state (pointwise) as the order used by `RegisterPlugins`. -/
theorem claim_C7_registrations_commute (l : List (String × String)) (s : RegistryState)
    (hperm : l.Perm pluginDescriptors) :
    ∃ s1 s2, (runSeq specHost l s).2 = some s1 ∧
      (RegisterPlugins specHost s).2 = some s2 ∧ ∀ n, s1 n = s2 n := by
  obtain ⟨s1, h1, h2⟩ := runSeq_specHost_active l s
  obtain ⟨s2, h3, h4⟩ := runSeq_specHost_active pluginDescriptors s
  refine ⟨s1, s2, h1, h3, ?_⟩
  intro n
  rw [h2 n, h4 n]
  have hm : n ∈ l.map Prod.snd ↔ n ∈ pluginDescriptors.map Prod.snd :=
    (hperm.map Prod.snd).mem_iff
  by_cases hn : n ∈ l.map Prod.snd
  · rw [if_pos hn, if_pos (hm.mp hn)]
  · rw [if_neg hn, if_neg (fun hc => hn (hm.mpr hc))]

/-- C7 witness: the reversed order yields the same final state as the source
order. -/
theorem claim_C7_registrations_commute_witness :
    ∃ s1 s2, (runSeq specHost pluginDescriptors.reverse (fun _ => false)).2 = some s1 ∧
      (RegisterPlugins specHost (fun _ => false)).2 = some s2 ∧ ∀ n, s1 n = s2 n :=
  claim_C7_registrations_commute pluginDescriptors.reverse (fun _ => false)
    (List.reverse_perm pluginDescriptors)

/-- C8: a successful invocation of `RegisterPlugins` yields no value beyond its
side effect (the embedding returns only the final state, mirroring the `void`
return type), and that final state differs from the input state only at the
eight plugin slots: each of the eight named slots is active, and every slot
with any other name keeps its input value unchanged. -/
theorem claim_C8_void_and_frame (s : RegistryState) :
    ∃ s1, (RegisterPlugins specHost s).2 = some s1 ∧
      (∀ n, n ∈ pluginNames → s1 n = true) ∧
      (∀ n, ¬ n ∈ pluginNames → s1 n = s n) := by
  obtain ⟨s1, h1, h2⟩ := runSeq_specHost_active pluginDescriptors s
  refine ⟨s1, h1, ?_, ?_⟩
  · intro n hn
    have hn' : n ∈ pluginDescriptors.map Prod.snd := hn
    rw [h2 n, if_pos hn']
  · intro n hn
    have hn' : ¬ n ∈ pluginDescriptors.map Prod.snd := hn
    rw [h2 n, if_neg hn']

/-- C8 witness: from an all-inactive registry, a plugin slot becomes active and
a foreign slot stays inactive. -/
theorem claim_C8_void_and_frame_witness :
    ∃ s1, (RegisterPlugins specHost (fun _ => false)).2 = some s1 ∧
      s1 "WindowManagerPlugin" = true ∧ s1 "SomeOtherPlugin" = false := by
  obtain ⟨s1, h1, h2, h3⟩ := claim_C8_void_and_frame (fun _ => false)
  exact ⟨s1, h1, h2 "WindowManagerPlugin" (by decide), h3 "SomeOtherPlugin" (by decide)⟩

/-- C9: a completed invocation of `RegisterPlugins` performs one fixed
straight-line sequence of operations: the eight plugins in the exact source
order, each plugin's lookup (`false`) immediately followed by that same
plugin's registration call (`true`), identically on every invocation. -/
theorem claim_C9_fixed_execution_order {ρ σ : Type} (h : Host ρ σ) (s : σ)
    (hs : (RegisterPlugins h s).2.isSome) :
    (RegisterPlugins h s).1.map eventLabel =
      [(false, "BatteryPlusWindowsPlugin"),
       (true, "BatteryPlusWindowsPluginRegisterWithRegistrar"),
       (false, "BonsoirWindowsPluginCApi"),
       (true, "BonsoirWindowsPluginCApiRegisterWithRegistrar"),
       (false, "FirebaseCorePluginCApi"),
       (true, "FirebaseCorePluginCApiRegisterWithRegistrar"),
       (false, "FlutterJsPlugin"),
       (true, "FlutterJsPluginRegisterWithRegistrar"),
       (false, "PermissionHandlerWindowsPlugin"),
       (true, "PermissionHandlerWindowsPluginRegisterWithRegistrar"),
       (false, "ScreenRetrieverWindowsPluginCApi"),
       (true, "ScreenRetrieverWindowsPluginCApiRegisterWithRegistrar"),
       (false, "UrlLauncherWindows"),
       (true, "UrlLauncherWindowsRegisterWithRegistrar"),
       (false, "WindowManagerPlugin"),
       (true, "WindowManagerPluginRegisterWithRegistrar")] := by
  have hl := runSeq_labels h pluginDescriptors s hs
  rw [RegisterPlugins] at *
  rw [hl]
  decide

/-- C9 witness: instantiated at the spec-modelled host. -/
theorem claim_C9_fixed_execution_order_witness :
    (RegisterPlugins specHost (fun _ => false)).1.map eventLabel =
      [(false, "BatteryPlusWindowsPlugin"),
       (true, "BatteryPlusWindowsPluginRegisterWithRegistrar"),
       (false, "BonsoirWindowsPluginCApi"),
       (true, "BonsoirWindowsPluginCApiRegisterWithRegistrar"),
       (false, "FirebaseCorePluginCApi"),
       (true, "FirebaseCorePluginCApiRegisterWithRegistrar"),
       (false, "FlutterJsPlugin"),
       (true, "FlutterJsPluginRegisterWithRegistrar"),
       (false, "PermissionHandlerWindowsPlugin"),
       (true, "PermissionHandlerWindowsPluginRegisterWithRegistrar"),
       (false, "ScreenRetrieverWindowsPluginCApi"),
       (true, "ScreenRetrieverWindowsPluginCApiRegisterWithRegistrar"),
       (false, "UrlLauncherWindows"),
       (true, "UrlLauncherWindowsRegisterWithRegistrar"),
       (false, "WindowManagerPlugin"),
       (true, "WindowManagerPluginRegisterWithRegistrar")] :=
  claim_C9_fixed_execution_order specHost (fun _ => false) rfl

/-- C10: `RegisterPlugins` is deterministic and depends only on the registry:
it reads no other input and keeps no internal state, so two invocations on
equal registry states produce identical event sequences and equal results. -/
theorem claim_C10_deterministic {ρ σ : Type} (h : Host ρ σ) (s1 s2 : σ)
    (heq : s1 = s2) :
    (RegisterPlugins h s1).1 = (RegisterPlugins h s2).1 ∧
    (RegisterPlugins h s1).2 = (RegisterPlugins h s2).2 := by
  rw [heq]
  exact ⟨rfl, rfl⟩

/-- C10 witness: instantiated at the spec-modelled host on equal states. -/
theorem claim_C10_deterministic_witness :
    (RegisterPlugins specHost (fun _ => false)).1 =
      (RegisterPlugins specHost (fun _ => false)).1 ∧
    (RegisterPlugins specHost (fun _ => false)).2 =
      (RegisterPlugins specHost (fun _ => false)).2 :=
  claim_C10_deterministic specHost (fun _ => false) (fun _ => false) rfl

end Streamline
